import Mathlib

/-!
# Verification of the notes app authentication subsystem

Shallow embedding of the JWT access/refresh token layer, the bcrypt-backed
credential checks, the sign-in / sign-up / refresh workflows, the AES-256-CBC
encrypted session cookie, and the cached MongoDB connection of the repository.

Conventions of the embedding:
* JS strings are Lean `String`s; machine time is a `Nat` of Unix seconds.
* A signed JWT is modelled symbolically as its claim set together with the
  secret it was signed with (`SignedToken`); `jwt.verify` succeeds exactly
  when the secrets agree and, unless `ignoreExpiration` is set, the token is
  not yet expired.  This is the standard idealisation of an unforgeable MAC.
* `bcrypt` is modelled as a deterministic injective encoding of the password;
  `bcrypt.compare` checks that recomputing the hash reproduces the stored one.
* AES-256-CBC with scrypt key derivation is modelled as an idealised
  symmetric cipher over strings: encryption injectively encodes the plaintext
  into a colon-free hex-alphabet string tagged with the key and IV, and
  decryption returns the plaintext only when key and IV match, failing
  (`none`, the model of the caught exception) otherwise.
* Functions that `throw` in JS return `Except`/`Option` here; a caught
  exception is the `none`/`.error` branch of the callee.
-/

namespace Notes

/-! ## Environment (src/configs/env.ts): the three signing/encryption secrets -/

/-- Server environment: the JWT secrets and the session-cookie secret. -/
structure Env where
  JWT_ACCESS_SECRET : String
  JWT_REFRESH_SECRET : String
  SESSION_SECRET : String
deriving DecidableEq, Repr

/-! ## JWT layer (src/lib/utils/auth/jwt.ts, src/utils/core/jwt.ts) -/

/-- The `type` discriminator claim of a token. -/
inductive TokenType where
  | access
  | refresh
deriving DecidableEq, Repr

/-- Claim set carried by a signed token (`JWT` type in the source):
`userId`, `email`, the discriminator, and issued-at / expiry timestamps. -/
structure JwtClaims where
  userId : String
  email : String
  type : TokenType
  iat : Nat
  exp : Nat
deriving DecidableEq, Repr

/-- A token produced by `jwt.sign`: the claims plus the secret used to sign.
Idealisation of an unforgeable signature: verification can compare the
signing secret against the verifying secret. -/
structure SignedToken where
  claims : JwtClaims
  secret : String
deriving DecidableEq, Repr

/-- `jwt.sign(payload, secret, { expiresIn })` at time `now`. -/
def jwtSign (userId email : String) (type : TokenType) (secret : String)
    (expiresIn now : Nat) : SignedToken :=
  { claims := { userId := userId, email := email, type := type,
                iat := now, exp := now + expiresIn },
    secret := secret }

/-- `jwt.verify(token, secret, { ignoreExpiration })` at time `now`.
Succeeds iff the signature checks (same secret) and, unless expiry is
ignored, `now` is before the `exp` claim (jsonwebtoken rejects once the
clock reaches `exp`).  Failure models the thrown `JsonWebTokenError` /
`TokenExpiredError`, which every caller in the source catches. -/
def jwtVerify (t : SignedToken) (secret : String) (ignoreExpiration : Bool)
    (now : Nat) : Option JwtClaims :=
  if t.secret = secret then
    if ignoreExpiration || decide (now < t.claims.exp) then some t.claims
    else none
  else none

/-- `generateAccessToken({userId, email})`: signs
`{userId, email, type: 'access'}` with the access secret, `expiresIn: '15m'`. -/
def generateAccessToken (env : Env) (userId email : String) (now : Nat) :
    SignedToken :=
  jwtSign userId email .access env.JWT_ACCESS_SECRET (15 * 60) now

/-- `generateRefreshToken({userId, email})`: signs
`{userId, email, type: 'refresh'}` with the refresh secret, `expiresIn: '7d'`. -/
def generateRefreshToken (env : Env) (userId email : String) (now : Nat) :
    SignedToken :=
  jwtSign userId email .refresh env.JWT_REFRESH_SECRET (7 * 24 * 60 * 60) now

/-- `verifyRefreshToken(token)`: `jwt.verify` against the refresh secret
(expiry enforced), then rejects unless the discriminator is `'refresh'`.
All failures (caught exception or wrong type) collapse to `null`. -/
def verifyRefreshToken (env : Env) (t : SignedToken) (now : Nat) :
    Option JwtClaims :=
  match jwtVerify t env.JWT_REFRESH_SECRET false now with
  | none => none
  | some decoded =>
    if decoded.type ≠ .refresh then none
    else some decoded

/-- `decodeAccessToken(token)`: `jwt.verify` against the access secret with
`ignoreExpiration: true`, then rejects unless the discriminator is
`'access'`.  All failures collapse to `null`. -/
def decodeAccessToken (env : Env) (t : SignedToken) (now : Nat) :
    Option JwtClaims :=
  match jwtVerify t env.JWT_ACCESS_SECRET true now with
  | none => none
  | some decoded =>
    if decoded.type ≠ .access then none
    else some decoded

/-! ## bcrypt (bcryptjs, cost factor 12)

Idealised deterministic model: `bcrypt.hash(pw, 12)` is an injective
encoding of the password (real bcrypt also embeds a random salt, which
`compare` recovers from the hash; determinism is the standard idealisation
that keeps `compare` exact), and `bcrypt.compare(pw, h)` succeeds exactly
when `h` is the hash of `pw`. -/

/-- `bcrypt.hash(password, 12)` (idealised: deterministic, collision-free). -/
def bcryptHash (password : String) : String :=
  "$2b$12$" ++ password

/-- `bcrypt.compare(plainPassword, hashedPassword)`. -/
def bcryptCompare (plainPassword hashedPassword : String) : Bool :=
  hashedPassword = bcryptHash plainPassword

/-- `verifyPassword(plainPassword, hashedPassword)` from
src/backend/services/user.service.ts — a direct wrapper of `bcrypt.compare`. -/
def verifyPassword (plainPassword hashedPassword : String) : Bool :=
  bcryptCompare plainPassword hashedPassword

/-! ## User store (mongoose `User` model and user service) -/

/-- A persisted user document (`UserModels` in the source): Mongo `_id`
rendered as its string form (`stringifyObjectId`), name, email, the bcrypt
`password` hash, and the ISO timestamps. -/
structure UserRecord where
  id : String
  name : String
  email : String
  password : String
  createdAt : String
  updatedAt : String
deriving DecidableEq, Repr

/-- `findUserByEmail(email)` = `User.findOne({ email })`: first match in the
store by exact email. -/
def findUserByEmail (store : List UserRecord) (email : String) :
    Option UserRecord :=
  store.find? (fun u => u.email = email)

/-- The sanitized identity returned by sign-up / sign-in / refresh:
`{id, name, email, createdAt, updatedAt}` — by construction it has no
password field, no hash field and no token field. -/
structure SanitizedUser where
  id : String
  name : String
  email : String
  createdAt : String
  updatedAt : String
deriving DecidableEq, Repr

/-- Projection of a user record to its sanitized identity. -/
def sanitize (u : UserRecord) : SanitizedUser :=
  { id := u.id, name := u.name, email := u.email,
    createdAt := u.createdAt, updatedAt := u.updatedAt }

/-- The access/refresh pair as returned to clients. -/
structure TokenPair where
  access : SignedToken
  refresh : SignedToken
deriving DecidableEq, Repr

/-- Success payload of sign-in and refresh: sanitized user plus token pair. -/
structure LoginResponse where
  user : SanitizedUser
  token : TokenPair
deriving DecidableEq, Repr

/-- `ApiError` (src/lib/utils/api/error.ts): message plus HTTP status. -/
structure ApiError where
  message : String
  status : Nat
deriving DecidableEq, Repr

/-! ## Auth service (src/lib/services/auth.ts,
src/features/auth/services/auth.ts) -/

/-- `signUp(data)`: rejects with a 409 `ApiError` when a user with the email
already exists, otherwise hashes the password (cost 12) and creates the
user, returning the sanitized identity (no tokens are issued).  The pair
returned is (result, updated store); `newId`/`createdAt`/`updatedAt` stand
for the Mongo-generated id and timestamps. -/
def signUp (store : List UserRecord) (name email password : String)
    (newId createdAt updatedAt : String) :
    Except ApiError SanitizedUser × List UserRecord :=
  match findUserByEmail store email with
  | some _ =>
    (.error { message := "User already exists with this email", status := 409 },
     store)
  | none =>
    let newUser : UserRecord :=
      { id := newId, name := name, email := email,
        password := bcryptHash password,
        createdAt := createdAt, updatedAt := updatedAt }
    (.ok (sanitize newUser), store ++ [newUser])

/-- JS falsiness of the stored `password` string (`!user.password`):
only the empty string is falsy. -/
def passwordFalsy (password : String) : Bool :=
  password = ""

/-- `signIn(credentials)`: looks up the user by email; if absent or the
stored hash is falsy, throws the 401 "Invalid email or password" `ApiError`;
compares the password with bcrypt and throws the *same* error on mismatch;
on success issues the access/refresh pair and returns the sanitized user
with the tokens.  `now` is the signing time. -/
def signIn (env : Env) (store : List UserRecord) (email password : String)
    (now : Nat) : Except ApiError LoginResponse :=
  match findUserByEmail store email with
  | none => .error { message := "Invalid email or password", status := 401 }
  | some user =>
    if passwordFalsy user.password then
      .error { message := "Invalid email or password", status := 401 }
    else if bcryptCompare password user.password then
      .ok { user := sanitize user,
            token := { access := generateAccessToken env user.id user.email now,
                       refresh := generateRefreshToken env user.id user.email now } }
    else
      .error { message := "Invalid email or password", status := 401 }

/-- `refreshSession({accessToken, refreshToken})`
(src/features/auth/services/auth.ts): decode the access token ignoring
expiry, verify the refresh token including expiry, require the two claim
sets to carry the same `userId`, re-fetch the user by the refresh claims'
email, and only then issue a brand-new pair. -/
def refreshSession (env : Env) (store : List UserRecord)
    (accessToken refreshToken : SignedToken) (now : Nat) :
    Except ApiError LoginResponse :=
  match decodeAccessToken env accessToken now with
  | none => .error { message := "Invalid access token", status := 401 }
  | some accessDecoded =>
    match verifyRefreshToken env refreshToken now with
    | none =>
      .error { message := "Invalid or expired refresh token", status := 401 }
    | some refreshDecoded =>
      if accessDecoded.userId ≠ refreshDecoded.userId then
        .error { message := "Token mismatch", status := 401 }
      else
        match findUserByEmail store refreshDecoded.email with
        | none => .error { message := "User not found", status := 401 }
        | some user =>
          .ok { user := sanitize user,
                token :=
                  { access := generateAccessToken env user.id user.email now,
                    refresh := generateRefreshToken env user.id user.email now } }

/-! ## HTTP response shapes (src/utils/core/api-response.ts) -/

/-- One entry of the `errors` array of an error body:
`{detail, attr}` with `attr` nullable. -/
structure ErrorItem where
  detail : String
  attr : Option String
deriving DecidableEq, Repr

/-- The JSON error body built by `apiError`:
`{type, code, errors, timestamp}`. -/
structure ApiErrorBody where
  type : String
  code : String
  errors : List ErrorItem
  timestamp : String
deriving DecidableEq, Repr

/-- An HTTP response of the sign-in route: either an error response
(status + error body) or the 200 success response
(`{code, detail, data, timestamp}` with the login payload as data). -/
inductive SigninResponse where
  | error (status : Nat) (body : ApiErrorBody)
  | success (status : Nat) (code detail : String) (data : LoginResponse)
      (timestamp : String)
deriving DecidableEq, Repr

/-- `apiError(code, status, errors)` with the default `'client_error'` type;
`ts` models `new Date().toISOString()`. -/
def apiErrorResp (code : String) (status : Nat) (errors : List ErrorItem)
    (ts : String) : SigninResponse :=
  .error status { type := "client_error", code := code, errors := errors,
                  timestamp := ts }

/-- `POST /api/auth/signin` (src/app/api/auth/signin/route.ts), after body
validation: find the user by email — if absent, 401 `UNAUTHORIZED` with
`{detail: 'Invalid email or password', attr: 'email'}`; verify the password —
on mismatch, 401 with the same detail but `attr: 'password'`; on success
issue the token pair and answer 200 `OK` with the login payload. -/
def signinRoutePOST (env : Env) (store : List UserRecord)
    (email password : String) (now : Nat) (ts : String) : SigninResponse :=
  match findUserByEmail store email with
  | none =>
    apiErrorResp "UNAUTHORIZED" 401
      [{ detail := "Invalid email or password", attr := some "email" }] ts
  | some user =>
    if verifyPassword password user.password then
      .success 200 "OK"
        "Login successful"
        { user := sanitize user,
          token := { access := generateAccessToken env user.id user.email now,
                     refresh := generateRefreshToken env user.id user.email now } }
        ts
    else
      apiErrorResp "UNAUTHORIZED" 401
        [{ detail := "Invalid email or password", attr := some "password" }] ts

/-- An HTTP response of the sign-up route: an error response or the
201 success response carrying the sanitized identity. -/
inductive SignupResponse where
  | error (status : Nat) (body : ApiErrorBody)
  | success (status : Nat) (code detail : String) (data : SanitizedUser)
      (timestamp : String)
deriving DecidableEq, Repr

/-- `POST /api/auth/signup` (src/app/api/auth/signup/route.ts), after body
validation: if a user with the email exists, 409 `CONFLICT` with
`{detail: 'User already exists with this email', attr: 'email'}` and no user
is created; otherwise hash the password, create the user, and answer 201
`CREATED` with the sanitized identity `{id, name, email, createdAt,
updatedAt}` — by the type of `SanitizedUser` the data carries no password,
no hash and no tokens.  Returns (response, updated store). -/
def signupRoutePOST (store : List UserRecord) (name email password : String)
    (newId createdAt updatedAt ts : String) :
    SignupResponse × List UserRecord :=
  match findUserByEmail store email with
  | some _ =>
    (.error 409
      { type := "client_error", code := "CONFLICT",
        errors := [{ detail := "User already exists with this email",
                     attr := some "email" }],
        timestamp := ts },
     store)
  | none =>
    let user : UserRecord :=
      { id := newId, name := name, email := email,
        password := bcryptHash password,
        createdAt := createdAt, updatedAt := updatedAt }
    (.success 201 "CREATED" "User registered successfully" (sanitize user) ts,
     store ++ [user])

/-! ## Session envelope (src/features/auth/session.ts)

`encryptSession` derives a 32-byte key from `SESSION_SECRET` via
`crypto.scryptSync(secret, 'salt', 32)`, draws a random 16-byte IV, encrypts
the UTF-8 plaintext with AES-256-CBC and returns `ivHex + ':' + cipherHex`.
`decryptSession` splits on `':'`, requires exactly two parts, rebuilds the
IV from hex, decrypts, and returns `decrypted || null`, catching every
exception as `null`.

The cipher is idealised: `aesEncrypt` injectively encodes the plaintext into
a colon-free string tagged with the (scrypt-derived) key and the IV, and
`aesDecrypt` recovers the plaintext exactly when key and IV agree, failing
like the caught bad-padding exception otherwise.  scrypt with the fixed
`'salt'` is an injective function of the secret, so the secret itself stands
for the derived key. -/

/-- The sixteen lowercase hex digit characters (index 0–15). -/
def hexDigitChar : Nat → Char
  | 0 => '0' | 1 => '1' | 2 => '2' | 3 => '3' | 4 => '4' | 5 => '5'
  | 6 => '6' | 7 => '7' | 8 => '8' | 9 => '9' | 10 => 'a' | 11 => 'b'
  | 12 => 'c' | 13 => 'd' | 14 => 'e' | _ => 'f'

/-- Big-endian fixed-width hex rendering of `n` (width `w` digits). -/
def hexPadLeft : Nat → Nat → List Char
  | 0, _ => []
  | w + 1, n => hexDigitChar (n / 16 ^ w % 16) :: hexPadLeft w n

/-- Inverse of `hexDigitChar` on the hex alphabet. -/
def parseHexDigit (c : Char) : Option Nat :=
  if c = '0' then some 0 else if c = '1' then some 1 else if c = '2' then some 2
  else if c = '3' then some 3 else if c = '4' then some 4
  else if c = '5' then some 5 else if c = '6' then some 6
  else if c = '7' then some 7 else if c = '8' then some 8
  else if c = '9' then some 9 else if c = 'a' then some 10
  else if c = 'b' then some 11 else if c = 'c' then some 12
  else if c = 'd' then some 13 else if c = 'e' then some 14
  else if c = 'f' then some 15 else none

/-- One step of big-endian hex parsing. -/
def hexStep (acc : Option Nat) (c : Char) : Option Nat :=
  match acc, parseHexDigit c with
  | some a, some d => some (16 * a + d)
  | _, _ => none

/-- Big-endian hex parsing (all characters must be hex digits). -/
def parseHexList (cs : List Char) : Option Nat :=
  cs.foldl hexStep (some 0)

/-- Encoding of one plaintext character: its codepoint as 7 hex digits
(codepoints are < 16^6, so the leading digit is always `'0'`). -/
def encChar (c : Char) : List Char :=
  hexPadLeft 7 c.toNat

/-- Encoding of a string, character by character. -/
def encStr (s : String) : List Char :=
  s.data.flatMap encChar

/-- Section terminator of the idealised cipher text: seven `'f'`s — never a
valid `encChar` chunk, whose leading digit is `'0'`. -/
def TERM7 : List Char :=
  ['f', 'f', 'f', 'f', 'f', 'f', 'f']

/-- Reads 7-character chunks until the terminator chunk; returns the
chunks read (concatenated, still encoded) and the remainder after the
terminator. -/
def splitSection : List Char → Option (List Char × List Char)
  | c0 :: c1 :: c2 :: c3 :: c4 :: c5 :: c6 :: rest =>
    if [c0, c1, c2, c3, c4, c5, c6] = TERM7 then some ([], rest)
    else
      match splitSection rest with
      | some (sec, r) => some (c0 :: c1 :: c2 :: c3 :: c4 :: c5 :: c6 :: sec, r)
      | none => none
  | _ => none

/-- Decodes a concatenation of 7-character chunks back to characters.
Codepoints are rebuilt with `Char.ofNat` without a validity test, the way
CBC decryption happily emits arbitrary byte content. -/
def decodeChunks : List Char → Option (List Char)
  | [] => some []
  | c0 :: c1 :: c2 :: c3 :: c4 :: c5 :: c6 :: rest =>
    match parseHexList [c0, c1, c2, c3, c4, c5, c6], decodeChunks rest with
    | some n, some cs => some (Char.ofNat n :: cs)
    | _, _ => none
  | _ => none

/-- Idealised AES-256-CBC encryption of `plain` under `key` and `ivHex`:
key tag, IV tag, then the encoded plaintext. -/
def aesEncrypt (key ivHex plain : String) : List Char :=
  encStr key ++ TERM7 ++ encStr ivHex ++ TERM7 ++ encStr plain

/-- Idealised AES-256-CBC decryption: recovers the plaintext when the key
and IV tags match, and fails (the model of the caught padding/format
exception) on any mismatch or malformed input. -/
def aesDecrypt (key ivHex : String) (cipher : List Char) : Option String :=
  match splitSection cipher with
  | none => none
  | some (keySec, rest) =>
    match splitSection rest with
    | none => none
    | some (ivSec, plainSec) =>
      if keySec = encStr key ∧ ivSec = encStr ivHex then
        match decodeChunks plainSec with
        | some cs => some (String.mk cs)
        | none => none
      else none

/-- JavaScript `string.split(sep)` for a one-character separator, on the
character list: `''.split(':') = ['']`, separators delimit (possibly empty)
fields. -/
def jsSplit (sep : Char) : List Char → List (List Char)
  | [] => [[]]
  | c :: rest =>
    if c = sep then [] :: jsSplit sep rest
    else
      match jsSplit sep rest with
      | [] => [[c]]
      | s :: ss => (c :: s) :: ss

/-- The 32-hex-character IV check: `Buffer.from(parts[0], 'hex')` followed
by `createCipheriv`'s 16-byte IV length requirement — anything else throws
and is caught as `null`. -/
def isIvHex (cs : List Char) : Bool :=
  cs.length = 32 && cs.all (fun c => (parseHexDigit c).isSome)

/-- `encryptSession(data)`: hex of the random 16-byte IV (`iv` as a number,
reduced mod 16^32), a `':'`, then the AES-256-CBC ciphertext under the
scrypt-derived key. -/
def encryptSession (env : Env) (iv : Nat) (data : String) : String :=
  let ivHex := String.mk (hexPadLeft 32 (iv % 16 ^ 32))
  ivHex ++ ":" ++ String.mk (aesEncrypt env.SESSION_SECRET ivHex data)

/-- `decryptSession(data)`: split on `':'`; unless there are exactly two
parts return `null`; rebuild the IV (throwing, hence `null`, unless 32 hex
chars); decrypt (any exception gives `null`); finally
`return decrypted || null` turns the empty decrypted string into `null`. -/
def decryptSession (env : Env) (data : String) : Option String :=
  let parts := jsSplit ':' data.data
  if parts.length ≠ 2 then none
  else
    match parts with
    | [p0, p1] =>
      if isIvHex p0 then
        match aesDecrypt env.SESSION_SECRET (String.mk p0) p1 with
        | none => none
        | some plain => if plain = "" then none else some plain
      else none
    | _ => none

/-! ## Session record and its JSON wire form -/

/-- `SessionData.user`: identity snapshot stored in the session. -/
structure SessionUser where
  id : String
  name : String
  email : String
deriving DecidableEq, Repr

/-- `SessionData.token`: the JWT strings stored in the session. -/
structure SessionToken where
  access : String
  refresh : String
deriving DecidableEq, Repr

/-- The `SessionData` interface of src/features/auth/session.ts. -/
structure SessionData where
  user : SessionUser
  token : SessionToken
  expirate : Nat
  remember : Bool
deriving DecidableEq, Repr

/-- JSON string escaping of one character (quote and backslash; control
characters are left as-is, which keeps the encoding injective). -/
def escChar (c : Char) : List Char :=
  if c = '"' ∨ c = '\\' then ['\\', c] else [c]

/-- A JSON string literal: `"` + escaped contents + `"`. -/
def jstr (s : String) : String :=
  "\"" ++ String.mk (s.data.flatMap escChar) ++ "\""

/-- `JSON.stringify` of a `SessionData` value, fields in declaration
order — the serialisation used by `createSession`. -/
def jsonStringify (d : SessionData) : String :=
  "\x7b\"user\":\x7b\"id\":" ++ jstr d.user.id ++
  ",\"name\":" ++ jstr d.user.name ++
  ",\"email\":" ++ jstr d.user.email ++
  "\x7d,\"token\":\x7b\"access\":" ++ jstr d.token.access ++
  ",\"refresh\":" ++ jstr d.token.refresh ++
  "\x7d,\"expirate\":" ++ toString d.expirate ++
  ",\"remember\":" ++ (if d.remember then "true" else "false") ++ "\x7d"

/-- Consumes an expected literal prefix. -/
def expectLit : List Char → List Char → Option (List Char)
  | [], cs => some cs
  | l :: ls, c :: cs => if c = l then expectLit ls cs else none
  | _ :: _, [] => none

/-- Scans a JSON string body up to the closing quote, undoing `escChar`. -/
def scanStr : List Char → Option (List Char × List Char)
  | [] => none
  | '\\' :: [] => none
  | '\\' :: c :: rest =>
    match scanStr rest with
    | some (s, r) => some (c :: s, r)
    | none => none
  | '"' :: rest => some ([], rest)
  | c :: rest =>
    match scanStr rest with
    | some (s, r) => some (c :: s, r)
    | none => none

/-- Reads a quoted JSON string. -/
def readQ (cs : List Char) : Option (String × List Char) :=
  match cs with
  | '"' :: rest =>
    match scanStr rest with
    | some (s, r) => some (String.mk s, r)
    | none => none
  | _ => none

/-- Reads a (decimal) JSON number. -/
def readNat (cs : List Char) : Option (Nat × List Char) :=
  let ds := cs.takeWhile (fun c => c.isDigit)
  let rest := cs.dropWhile (fun c => c.isDigit)
  if ds = [] then none
  else some (ds.foldl (fun a c => 10 * a + (c.toNat - 48)) 0, rest)

/-- Reads a JSON boolean. -/
def readBool (cs : List Char) : Option (Bool × List Char) :=
  match expectLit "true".data cs with
  | some r => some (true, r)
  | none =>
    match expectLit "false".data cs with
    | some r => some (false, r)
    | none => none

/-- Parser for the exact wire form emitted by `jsonStringify`.  Together
with the cast in `getSession` (`return JSON.parse(decrypted)` typed as
`SessionData`) this models `JSON.parse`: decrypted text that is not a
session record is a parse failure (JS would throw on non-JSON such as
ciphertext garbage, which is the case the theorems exercise). -/
def parseSession (cs : List Char) : Option SessionData := do
  let r0 ← expectLit "\x7b\"user\":\x7b\"id\":".data cs
  let (idS, r1) ← readQ r0
  let r2 ← expectLit ",\"name\":".data r1
  let (nameS, r3) ← readQ r2
  let r4 ← expectLit ",\"email\":".data r3
  let (emailS, r5) ← readQ r4
  let r6 ← expectLit "\x7d,\"token\":\x7b\"access\":".data r5
  let (accS, r7) ← readQ r6
  let r8 ← expectLit ",\"refresh\":".data r7
  let (refS, r9) ← readQ r8
  let r10 ← expectLit "\x7d,\"expirate\":".data r9
  let (expN, r11) ← readNat r10
  let r12 ← expectLit ",\"remember\":".data r11
  let (remB, r13) ← readBool r12
  let r14 ← expectLit "\x7d".data r13
  if r14 = [] then
    some { user := { id := idS, name := nameS, email := emailS },
           token := { access := accS, refresh := refS },
           expirate := expN, remember := remB }
  else none

/-- `JSON.parse` as used by `getSession`: `.error` models the thrown
`SyntaxError` (uncaught in `getSession`). -/
def jsonParse (s : String) : Except String SessionData :=
  match parseSession s.data with
  | some v => .ok v
  | none => .error "SyntaxError: Unexpected token in JSON"

/-! ## Cookie-level session operations.  The cookie jar is the value of the
`notes.session-token` cookie (`Option String`); cookie attributes
(`httpOnly`, `expires`, …) carry no logic and are not modelled. -/

/-- `createSession(data)`: encrypt the JSON form and store it in the
cookie; returns the new cookie value.  `iv` is the random IV drawn by
`encryptSession`. -/
def createSession (env : Env) (iv : Nat) (data : SessionData) : String :=
  encryptSession env iv (jsonStringify data)

/-- `getSession()`: no cookie → `null`; failed decryption → `null`;
otherwise `JSON.parse(decrypted)` — whose exception, if any, escapes,
since the source wraps no try/catch around it. -/
def getSession (env : Env) (cookie : Option String) :
    Except String (Option SessionData) :=
  match cookie with
  | none => .ok none
  | some c =>
    match decryptSession env c with
    | none => .ok none
    | some plain =>
      match jsonParse plain with
      | .ok v => .ok (some v)
      | .error e => .error e

/-- `updateSession(updater)`: read the current session; when there is none
(`if (!current) return`), leave the cookie as it is and never run the
updater; otherwise re-encrypt `updater(current)` into the cookie.  Returns
the cookie value after the call. -/
def updateSession (env : Env) (updater : SessionData → SessionData)
    (cookie : Option String) (iv : Nat) : Except String (Option String) :=
  match getSession env cookie with
  | .error e => .error e
  | .ok none => .ok cookie
  | .ok (some current) => .ok (some (createSession env iv (updater current)))

/-! ## MongoDB connection cache (src/libs/mongodb.ts)

`dbConnect` keeps a module-level cache `{ conn, promise }`.  Its synchronous
prefix — check `cached.conn`, check `cached.promise`, and (only if the
latter is unset) start `mongoose.connect` and store its promise — runs
atomically on the JS event loop, so it is one `call` event here.  A
fulfilment of the in-flight promise (all awaiting callers then assign
`cached.conn`) is one `resolveOk` event, and a rejection (all awaiting
callers run `cached.promise = null` in their catch; Node's FIFO microtask
order runs every such catch before any caller can re-enter `dbConnect`) is
one `resolveFail` event.  Connection attempts are numbered so they can be
counted and distinguished. -/

/-- The module-level cache plus attempt counters (`started`/`finished`
are ghost state counting connection-establishment attempts). -/
structure MongooseCache where
  conn : Option Nat
  promise : Option Nat
  started : Nat
  finished : Nat
deriving DecidableEq, Repr

/-- The cache at process start: `{ conn: null, promise: null }`. -/
def initialCache : MongooseCache :=
  { conn := none, promise := none, started := 0, finished := 0 }

/-- Events of the connection cache. -/
inductive DbEvent where
  | call
  | resolveOk
  | resolveFail
deriving DecidableEq, Repr

/-- What a `dbConnect` caller does, as decided by the synchronous prefix:
return the cached connection, await the already-in-flight attempt, or
start a new attempt. -/
inductive CallAction where
  | reuseConn
  | awaitExisting (attempt : Nat)
  | startNew (attempt : Nat)
deriving DecidableEq, Repr

/-- The branch `dbConnect` takes in a given cache state. -/
def callAction (s : MongooseCache) : CallAction :=
  match s.conn, s.promise with
  | some _, _ => .reuseConn
  | none, some a => .awaitExisting a
  | none, none => .startNew s.started

/-- One atomic event of the cache.  `call` mirrors `dbConnect`'s prefix;
`resolveOk` sets `cached.conn` and leaves `cached.promise` in place (as the
source does); `resolveFail` is the catch block `cached.promise = null`. -/
def dbStep (s : MongooseCache) : DbEvent → MongooseCache
  | .call =>
    match s.conn, s.promise with
    | some _, _ => s
    | none, some _ => s
    | none, none =>
      { s with promise := some s.started, started := s.started + 1 }
  | .resolveOk =>
    match s.conn, s.promise with
    | none, some a => { s with conn := some a, finished := s.finished + 1 }
    | _, _ => s
  | .resolveFail =>
    match s.conn, s.promise with
    | none, some _ => { s with promise := none, finished := s.finished + 1 }
    | _, _ => s

/-- The cache after a sequence of events from process start. -/
def dbRun (events : List DbEvent) : MongooseCache :=
  events.foldl dbStep initialCache

/-- An attempt is in flight when a promise is cached but no connection has
resolved yet. -/
def inFlightCount (s : MongooseCache) : Nat :=
  match s.conn, s.promise with
  | none, some _ => 1
  | _, _ => 0

/-! ## Theorems -/

/-- C3: for every `(userId, email)` pair (and any secrets and times),
`verifyRefreshToken` returns the invalid sentinel `null` on a token
produced by `generateAccessToken`, and `decodeAccessToken` returns `null`
on a token produced by `generateRefreshToken`: if the secrets differ the
signature check fails, and even with equal secrets the `type`
discriminator check rejects.  Both functions are total (the thrown
verification errors are caught in the source), so neither throws. -/
theorem crossPurposeTokensRejected (env : Env) (userId email : String)
    (issuedAt now : Nat) :
    verifyRefreshToken env (generateAccessToken env userId email issuedAt) now
      = none ∧
    decodeAccessToken env (generateRefreshToken env userId email issuedAt) now
      = none := by
  constructor
  · unfold verifyRefreshToken generateAccessToken jwtSign jwtVerify
    split_ifs <;> simp
  · unfold decodeAccessToken generateRefreshToken jwtSign jwtVerify
    split_ifs <;> simp

/-- C4: an access token issued by `generateAccessToken` is still accepted
by `decodeAccessToken` (with its original claims) at any time after its
15-minute expiry has passed — expiry is ignored by design — whereas a
refresh token issued by `generateRefreshToken` is rejected by
`verifyRefreshToken` once its 7-day expiry has passed. -/
theorem expiredAccessAcceptedExpiredRefreshRejected (env : Env)
    (userId email : String) (iatA iatR nowA nowR : Nat)
    (hA : iatA + 15 * 60 < nowA) (hR : iatR + 7 * 24 * 60 * 60 ≤ nowR) :
    decodeAccessToken env (generateAccessToken env userId email iatA) nowA
      = some { userId := userId, email := email, type := .access,
               iat := iatA, exp := iatA + 15 * 60 } ∧
    verifyRefreshToken env (generateRefreshToken env userId email iatR) nowR
      = none := by
  constructor
  · unfold decodeAccessToken generateAccessToken jwtSign jwtVerify
    simp
  · unfold verifyRefreshToken generateRefreshToken jwtSign jwtVerify
    simp only [if_pos rfl]
    have : ¬ (nowR < iatR + 7 * 24 * 60 * 60) := by omega
    simp [this]

/-- Witness for C4 at concrete inputs: issue both tokens at time 0, look at
the access token 1000 seconds (past 900) and the refresh token 700000
seconds (past 604800) later. -/
theorem expiredAccessAcceptedExpiredRefreshRejected_witness :
    decodeAccessToken { JWT_ACCESS_SECRET := "acc-secret",
                        JWT_REFRESH_SECRET := "ref-secret",
                        SESSION_SECRET := "sess-secret" }
      (generateAccessToken { JWT_ACCESS_SECRET := "acc-secret",
                             JWT_REFRESH_SECRET := "ref-secret",
                             SESSION_SECRET := "sess-secret" }
        "user-1" "ann@example.com" 0) 1000
      = some { userId := "user-1", email := "ann@example.com",
               type := .access, iat := 0, exp := 900 } ∧
    verifyRefreshToken { JWT_ACCESS_SECRET := "acc-secret",
                         JWT_REFRESH_SECRET := "ref-secret",
                         SESSION_SECRET := "sess-secret" }
      (generateRefreshToken { JWT_ACCESS_SECRET := "acc-secret",
                              JWT_REFRESH_SECRET := "ref-secret",
                              SESSION_SECRET := "sess-secret" }
        "user-1" "ann@example.com" 0) 700000
      = none :=
  expiredAccessAcceptedExpiredRefreshRejected _ "user-1" "ann@example.com"
    0 0 1000 700000 (by decide) (by decide)

/-- C5: whenever an access token and a refresh token individually pass
`decodeAccessToken` and `verifyRefreshToken` but carry different embedded
`userId`s, `refreshSession` rejects with the 401 "Token mismatch" error —
the `.error` result carries no payload, so no new token pair is issued. -/
theorem refreshRejectsUserIdMismatch (env : Env) (store : List UserRecord)
    (accessToken refreshToken : SignedToken) (now : Nat)
    (ca cr : JwtClaims)
    (ha : decodeAccessToken env accessToken now = some ca)
    (hr : verifyRefreshToken env refreshToken now = some cr)
    (hne : ca.userId ≠ cr.userId) :
    refreshSession env store accessToken refreshToken now
      = .error { message := "Token mismatch", status := 401 } := by
  unfold refreshSession
  rw [ha, hr]
  simp [hne]

/-- Witness for C5: two individually valid, unexpired tokens issued to
different user ids make `refreshSession` answer the 401 token-mismatch
error. -/
theorem refreshRejectsUserIdMismatch_witness :
    refreshSession { JWT_ACCESS_SECRET := "acc-secret",
                     JWT_REFRESH_SECRET := "ref-secret",
                     SESSION_SECRET := "sess-secret" } []
      (generateAccessToken { JWT_ACCESS_SECRET := "acc-secret",
                             JWT_REFRESH_SECRET := "ref-secret",
                             SESSION_SECRET := "sess-secret" }
        "user-1" "ann@example.com" 0)
      (generateRefreshToken { JWT_ACCESS_SECRET := "acc-secret",
                              JWT_REFRESH_SECRET := "ref-secret",
                              SESSION_SECRET := "sess-secret" }
        "user-2" "bob@example.com" 0) 10
      = .error { message := "Token mismatch", status := 401 } :=
  refreshRejectsUserIdMismatch _ [] _ _ 10
    { userId := "user-1", email := "ann@example.com", type := .access,
      iat := 0, exp := 900 }
    { userId := "user-2", email := "bob@example.com", type := .refresh,
      iat := 0, exp := 604800 }
    (by decide) (by decide) (by decide)

/-- C1 counterexample: in `POST /api/auth/signin`
(src/app/api/auth/signin/route.ts) the 401 body for a correct email with a
wrong password carries `attr: 'password'` while the 401 body for a
non-existent email carries `attr: 'email'`, so the two error responses are
not byte-identical: the claim fails at this concrete store and request
pair. -/
theorem signinEnumeration_counterexample :
    signinRoutePOST
      { JWT_ACCESS_SECRET := "acc-secret", JWT_REFRESH_SECRET := "ref-secret",
        SESSION_SECRET := "sess-secret" }
      [{ id := "1", name := "Ann", email := "ann@example.com",
         password := bcryptHash "secret1",
         createdAt := "t0", updatedAt := "t0" }]
      "ann@example.com" "wrong-password" 0 "2026-01-01T00:00:00.000Z"
    ≠ signinRoutePOST
      { JWT_ACCESS_SECRET := "acc-secret", JWT_REFRESH_SECRET := "ref-secret",
        SESSION_SECRET := "sess-secret" }
      [{ id := "1", name := "Ann", email := "ann@example.com",
         password := bcryptHash "secret1",
         createdAt := "t0", updatedAt := "t0" }]
      "bob@example.com" "wrong-password" 0 "2026-01-01T00:00:00.000Z" := by
  decide

/-- C1 amended: wrong-password and no-such-user sign-in failures share the
HTTP status 401, the code `UNAUTHORIZED`, the type `client_error` and the
detail string "Invalid email or password", but the route's bodies differ in
the `attr` field (`'password'` vs `'email'`), so they are not
byte-identical; on the service path (src/lib/services/auth.ts) the two
failures throw the literally identical `ApiError('Invalid email or
password', 401)`, which its route surfaces with `attr: null`. -/
theorem signinEnumeration_amended (env : Env) (store : List UserRecord)
    (e1 p1 e2 p2 : String) (u : UserRecord) (now : Nat) (ts : String)
    (h1 : findUserByEmail store e1 = some u)
    (hv : verifyPassword p1 u.password = false)
    (h2 : findUserByEmail store e2 = none) :
    signinRoutePOST env store e1 p1 now ts
      = apiErrorResp "UNAUTHORIZED" 401
          [{ detail := "Invalid email or password", attr := some "password" }]
          ts ∧
    signinRoutePOST env store e2 p2 now ts
      = apiErrorResp "UNAUTHORIZED" 401
          [{ detail := "Invalid email or password", attr := some "email" }]
          ts ∧
    signIn env store e1 p1 now
      = .error { message := "Invalid email or password", status := 401 } ∧
    signIn env store e2 p2 now
      = .error { message := "Invalid email or password", status := 401 } := by
  refine ⟨?_, ?_, ?_, ?_⟩
  · unfold signinRoutePOST
    rw [h1]
    simp [hv]
  · unfold signinRoutePOST
    rw [h2]
  · unfold signIn
    rw [h1]
    unfold verifyPassword at hv
    simp [hv]
  · unfold signIn
    rw [h2]

/-- Witness for the amended C1 at the concrete store of the
counterexample. -/
theorem signinEnumeration_amended_witness :
    signinRoutePOST
      { JWT_ACCESS_SECRET := "acc-secret", JWT_REFRESH_SECRET := "ref-secret",
        SESSION_SECRET := "sess-secret" }
      [{ id := "1", name := "Ann", email := "ann@example.com",
         password := bcryptHash "secret1",
         createdAt := "t0", updatedAt := "t0" }]
      "ann@example.com" "wrong-password" 0 "ts"
      = apiErrorResp "UNAUTHORIZED" 401
          [{ detail := "Invalid email or password", attr := some "password" }]
          "ts" ∧
    signinRoutePOST
      { JWT_ACCESS_SECRET := "acc-secret", JWT_REFRESH_SECRET := "ref-secret",
        SESSION_SECRET := "sess-secret" }
      [{ id := "1", name := "Ann", email := "ann@example.com",
         password := bcryptHash "secret1",
         createdAt := "t0", updatedAt := "t0" }]
      "bob@example.com" "wrong-password" 0 "ts"
      = apiErrorResp "UNAUTHORIZED" 401
          [{ detail := "Invalid email or password", attr := some "email" }]
          "ts" ∧
    signIn
      { JWT_ACCESS_SECRET := "acc-secret", JWT_REFRESH_SECRET := "ref-secret",
        SESSION_SECRET := "sess-secret" }
      [{ id := "1", name := "Ann", email := "ann@example.com",
         password := bcryptHash "secret1",
         createdAt := "t0", updatedAt := "t0" }]
      "ann@example.com" "wrong-password" 0
      = .error { message := "Invalid email or password", status := 401 } ∧
    signIn
      { JWT_ACCESS_SECRET := "acc-secret", JWT_REFRESH_SECRET := "ref-secret",
        SESSION_SECRET := "sess-secret" }
      [{ id := "1", name := "Ann", email := "ann@example.com",
         password := bcryptHash "secret1",
         createdAt := "t0", updatedAt := "t0" }]
      "bob@example.com" "wrong-password" 0
      = .error { message := "Invalid email or password", status := 401 } :=
  signinEnumeration_amended _ _ "ann@example.com" "wrong-password"
    "bob@example.com" "wrong-password"
    { id := "1", name := "Ann", email := "ann@example.com",
      password := bcryptHash "secret1", createdAt := "t0", updatedAt := "t0" }
    0 "ts" (by decide) (by decide) (by decide)

/-- C7: registration with a fresh email answers 201 `CREATED` with exactly
the sanitized identity `{id, name, email, createdAt, updatedAt}` — the
`SanitizedUser` type has no password, hash or token field — and appends the
(hashed-password) user to the store; registration with an email that
already has a user answers the 409 `CONFLICT` error naming the `email`
attribute and leaves the store unchanged (no user is created). -/
theorem signupFreshCreatedDuplicateConflict (store : List UserRecord)
    (name email password newId createdAt updatedAt ts : String) :
    (findUserByEmail store email = none →
      signupRoutePOST store name email password newId createdAt updatedAt ts
        = (.success 201 "CREATED" "User registered successfully"
            { id := newId, name := name, email := email,
              createdAt := createdAt, updatedAt := updatedAt } ts,
           store ++ [{ id := newId, name := name, email := email,
                       password := bcryptHash password,
                       createdAt := createdAt, updatedAt := updatedAt }])) ∧
    (∀ u, findUserByEmail store email = some u →
      signupRoutePOST store name email password newId createdAt updatedAt ts
        = (.error 409
            { type := "client_error", code := "CONFLICT",
              errors := [{ detail := "User already exists with this email",
                           attr := some "email" }],
              timestamp := ts },
           store)) := by
  constructor
  · intro h
    unfold signupRoutePOST
    rw [h]
    rfl
  · intro u h
    unfold signupRoutePOST
    rw [h]

/-- Witness for C7: registering Ann into the empty store succeeds with 201,
and re-registering her email against the resulting store answers the 409
conflict and leaves that store as it was. -/
theorem signupFreshCreatedDuplicateConflict_witness :
    signupRoutePOST [] "Ann" "ann@example.com" "secret1" "1" "t0" "t0" "ts"
      = (.success 201 "CREATED" "User registered successfully"
          { id := "1", name := "Ann", email := "ann@example.com",
            createdAt := "t0", updatedAt := "t0" } "ts",
         [{ id := "1", name := "Ann", email := "ann@example.com",
            password := bcryptHash "secret1",
            createdAt := "t0", updatedAt := "t0" }]) ∧
    signupRoutePOST
      [{ id := "1", name := "Ann", email := "ann@example.com",
         password := bcryptHash "secret1",
         createdAt := "t0", updatedAt := "t0" }]
      "Ann" "ann@example.com" "secret1" "2" "t1" "t1" "ts"
      = (.error 409
          { type := "client_error", code := "CONFLICT",
            errors := [{ detail := "User already exists with this email",
                         attr := some "email" }],
            timestamp := "ts" },
         [{ id := "1", name := "Ann", email := "ann@example.com",
            password := bcryptHash "secret1",
            createdAt := "t0", updatedAt := "t0" }]) :=
  ⟨by
    have h := (signupFreshCreatedDuplicateConflict [] "Ann" "ann@example.com"
      "secret1" "1" "t0" "t0" "ts").1 (by decide)
    simpa using h,
   (signupFreshCreatedDuplicateConflict _ "Ann" "ann@example.com"
      "secret1" "2" "t1" "t1" "ts").2
     { id := "1", name := "Ann", email := "ann@example.com",
       password := bcryptHash "secret1", createdAt := "t0", updatedAt := "t0" }
     (by decide)⟩

/-! ### Helper lemmas about the idealised cipher encoding -/

/-- `hexDigitChar` never produces the separator `':'`. -/
theorem hexDigitChar_ne_colon (n : Nat) : hexDigitChar n ≠ ':' := by
  unfold hexDigitChar
  split <;> decide

/-- `hexDigitChar` always lands in the hex alphabet. -/
theorem parseHexDigit_hexDigitChar_isSome (n : Nat) :
    (parseHexDigit (hexDigitChar n)).isSome := by
  unfold hexDigitChar
  split <;> decide

/-- `parseHexDigit` inverts `hexDigitChar` below 16. -/
theorem parseHexDigit_hexDigitChar (n : Nat) (h : n < 16) :
    parseHexDigit (hexDigitChar n) = some n := by
  interval_cases n <;> rfl

/-- `hexPadLeft` has exactly the requested width. -/
theorem hexPadLeft_length (w : Nat) : ∀ n, (hexPadLeft w n).length = w := by
  induction w with
  | zero => intro n; rfl
  | succ w ih => intro n; simp [hexPadLeft, ih]

/-- Every character of a `hexPadLeft` rendering is a hex digit. -/
theorem mem_hexPadLeft_isHex (w : Nat) :
    ∀ n c, c ∈ hexPadLeft w n → (parseHexDigit c).isSome := by
  induction w with
  | zero => intro n c h; simp [hexPadLeft] at h
  | succ w ih =>
    intro n c h
    simp only [hexPadLeft, List.mem_cons] at h
    rcases h with h | h
    · subst h; exact parseHexDigit_hexDigitChar_isSome _
    · exact ih n c h

/-- The separator never occurs in a hex rendering. -/
theorem colon_not_mem_hexPadLeft (w n : Nat) : ':' ∉ hexPadLeft w n := by
  intro h
  have := mem_hexPadLeft_isHex w n ':' h
  simp [parseHexDigit] at this

/-- Decomposing one more hex digit out of a remainder. -/
theorem mod_pow_succ16 (n w : Nat) :
    n % 16 ^ (w + 1) = 16 ^ w * (n / 16 ^ w % 16) + n % 16 ^ w := by
  conv_lhs => rw [← Nat.div_add_mod (n % 16 ^ (w + 1)) (16 ^ w)]
  rw [Nat.mod_mod_of_dvd _ (pow_dvd_pow 16 (Nat.le_succ w))]
  congr 1
  rw [pow_succ, Nat.mod_mul_right_div_self]

/-- Folding `hexStep` over a hex rendering accumulates exactly the encoded
value. -/
theorem foldl_hexStep_hexPadLeft (w : Nat) :
    ∀ n acc, (hexPadLeft w n).foldl hexStep (some acc)
      = some (acc * 16 ^ w + n % 16 ^ w) := by
  induction w with
  | zero => intro n acc; simp [hexPadLeft, Nat.mod_one]
  | succ w ih =>
    intro n acc
    have hd : n / 16 ^ w % 16 < 16 := Nat.mod_lt _ (by norm_num)
    simp only [hexPadLeft, List.foldl_cons]
    rw [show hexStep (some acc) (hexDigitChar (n / 16 ^ w % 16))
          = some (16 * acc + n / 16 ^ w % 16) by
        unfold hexStep
        rw [parseHexDigit_hexDigitChar _ hd]]
    rw [ih]
    congr 1
    rw [mod_pow_succ16]
    ring

/-- `parseHexList` inverts `hexPadLeft` when the value fits the width. -/
theorem parseHexList_hexPadLeft (w n : Nat) (h : n < 16 ^ w) :
    parseHexList (hexPadLeft w n) = some n := by
  unfold parseHexList
  rw [foldl_hexStep_hexPadLeft]
  rw [Nat.mod_eq_of_lt h]
  simp

/-- Codepoints fit in six hex digits. -/
theorem char_toNat_lt_16_pow_6 (c : Char) : c.toNat < 16 ^ 6 := by
  have h := c.valid
  simp only [UInt32.isValidChar, Nat.isValidChar] at h
  have hv : Char.toNat c = c.val.toNat := rfl
  rw [hv]
  rcases h with h | ⟨h1, h2⟩ <;> norm_num <;> omega

/-- An `encChar` chunk starts with `'0'` (codepoints are < 16^6), so it is
never the terminator chunk; `splitSection` therefore walks over a whole
encoded section and stops exactly at the terminator. -/
theorem splitSection_encoded (r : List Char) :
    ∀ cs : List Char,
      splitSection (cs.flatMap encChar ++ TERM7 ++ r)
        = some (cs.flatMap encChar, r) := by
  intro cs
  induction cs with
  | nil => simp [splitSection, TERM7]
  | cons c cs ih =>
    have hdiv : c.toNat / 16 ^ 6 = 0 :=
      Nat.div_eq_of_lt (char_toNat_lt_16_pow_6 c)
    have hd : hexDigitChar (c.toNat / 16 ^ 6 % 16) = '0' := by
      rw [hdiv]
      decide
    rw [show ((c :: cs).flatMap encChar ++ TERM7 ++ r)
          = hexDigitChar (c.toNat / 16 ^ 6 % 16)
            :: hexDigitChar (c.toNat / 16 ^ 5 % 16)
            :: hexDigitChar (c.toNat / 16 ^ 4 % 16)
            :: hexDigitChar (c.toNat / 16 ^ 3 % 16)
            :: hexDigitChar (c.toNat / 16 ^ 2 % 16)
            :: hexDigitChar (c.toNat / 16 ^ 1 % 16)
            :: hexDigitChar (c.toNat / 16 ^ 0 % 16)
            :: (cs.flatMap encChar ++ TERM7 ++ r) from rfl]
    rw [show ((c :: cs).flatMap encChar : List Char)
          = hexDigitChar (c.toNat / 16 ^ 6 % 16)
            :: hexDigitChar (c.toNat / 16 ^ 5 % 16)
            :: hexDigitChar (c.toNat / 16 ^ 4 % 16)
            :: hexDigitChar (c.toNat / 16 ^ 3 % 16)
            :: hexDigitChar (c.toNat / 16 ^ 2 % 16)
            :: hexDigitChar (c.toNat / 16 ^ 1 % 16)
            :: hexDigitChar (c.toNat / 16 ^ 0 % 16)
            :: cs.flatMap encChar from rfl]
    rw [hd]
    rw [splitSection]
    rw [if_neg (by simp [TERM7])]
    rw [ih]

/-- `decodeChunks` decodes an encoded character list back to itself. -/
theorem decodeChunks_encoded :
    ∀ cs : List Char, decodeChunks (cs.flatMap encChar) = some cs := by
  intro cs
  induction cs with
  | nil => rfl
  | cons c cs ih =>
    have hlt : c.toNat < 16 ^ 7 :=
      lt_trans (char_toNat_lt_16_pow_6 c) (by norm_num)
    rw [show ((c :: cs).flatMap encChar : List Char)
          = hexDigitChar (c.toNat / 16 ^ 6 % 16)
            :: hexDigitChar (c.toNat / 16 ^ 5 % 16)
            :: hexDigitChar (c.toNat / 16 ^ 4 % 16)
            :: hexDigitChar (c.toNat / 16 ^ 3 % 16)
            :: hexDigitChar (c.toNat / 16 ^ 2 % 16)
            :: hexDigitChar (c.toNat / 16 ^ 1 % 16)
            :: hexDigitChar (c.toNat / 16 ^ 0 % 16)
            :: cs.flatMap encChar from rfl]
    rw [decodeChunks]
    rw [show (hexDigitChar (c.toNat / 16 ^ 6 % 16)
            :: hexDigitChar (c.toNat / 16 ^ 5 % 16)
            :: hexDigitChar (c.toNat / 16 ^ 4 % 16)
            :: hexDigitChar (c.toNat / 16 ^ 3 % 16)
            :: hexDigitChar (c.toNat / 16 ^ 2 % 16)
            :: hexDigitChar (c.toNat / 16 ^ 1 % 16)
            :: hexDigitChar (c.toNat / 16 ^ 0 % 16) :: [])
          = hexPadLeft 7 c.toNat from rfl]
    rw [parseHexList_hexPadLeft 7 c.toNat hlt, ih]
    simp [Char.ofNat_toNat]

/-- The encoding of a character list is injective. -/
theorem encChar_flatMap_inj {a b : List Char}
    (h : a.flatMap encChar = b.flatMap encChar) : a = b := by
  have ha := decodeChunks_encoded a
  have hb := decodeChunks_encoded b
  rw [h, hb] at ha
  exact (Option.some.inj ha).symm

/-- The separator never occurs in an encoded section. -/
theorem colon_not_mem_flatMap_encChar (cs : List Char) :
    ':' ∉ cs.flatMap encChar := by
  intro h
  rcases List.mem_flatMap.mp h with ⟨c, _, hc⟩
  exact absurd (mem_hexPadLeft_isHex 7 c.toNat ':' hc) (by decide)

/-- The separator never occurs in the idealised ciphertext. -/
theorem colon_not_mem_aesEncrypt (key ivHex plain : String) :
    ':' ∉ aesEncrypt key ivHex plain := by
  unfold aesEncrypt encStr
  intro h
  simp only [List.mem_append] at h
  rcases h with ((((h | h) | h) | h) | h)
  · exact colon_not_mem_flatMap_encChar _ h
  · exact absurd h (by decide)
  · exact colon_not_mem_flatMap_encChar _ h
  · exact absurd h (by decide)
  · exact colon_not_mem_flatMap_encChar _ h

/-- `jsSplit` on a separator-free list yields that single field. -/
theorem jsSplit_no_sep (sep : Char) :
    ∀ cs : List Char, sep ∉ cs → jsSplit sep cs = [cs] := by
  intro cs
  induction cs with
  | nil => intro _; rfl
  | cons c cs ih =>
    intro h
    have hc : ¬ c = sep := fun he => h (he ▸ List.mem_cons_self c cs)
    have hcs : sep ∉ cs := fun hm => h (List.mem_cons_of_mem c hm)
    simp only [jsSplit, if_neg hc, ih hcs]

/-- `jsSplit` peels off a separator-free first field. -/
theorem jsSplit_append (sep : Char) (b : List Char) :
    ∀ a : List Char, sep ∉ a →
      jsSplit sep (a ++ sep :: b) = a :: jsSplit sep b := by
  intro a
  induction a with
  | nil => intro _; simp [jsSplit]
  | cons c a ih =>
    intro h
    have hc : ¬ c = sep := fun he => h (he ▸ List.mem_cons_self c a)
    have ha : sep ∉ a := fun hm => h (List.mem_cons_of_mem c hm)
    simp only [List.cons_append, jsSplit, if_neg hc, List.append_eq, ih ha]

/-- The hex form of the IV passes `decryptSession`'s IV format check. -/
theorem isIvHex_hexPadLeft (n : Nat) : isIvHex (hexPadLeft 32 n) = true := by
  have hall : (hexPadLeft 32 n).all (fun c => (parseHexDigit c).isSome) = true := by
    rw [List.all_eq_true]
    intro c hc
    exact mem_hexPadLeft_isHex 32 n c hc
  simp [isIvHex, hexPadLeft_length, hall]

/-- Strings with the same character list are equal. -/
theorem string_data_inj {a b : String} (h : a.data = b.data) : a = b := by
  cases a
  cases b
  simp_all

/-- `splitSection` over an encoded string section (right-nested form). -/
theorem splitSection_encStr (s : String) (r : List Char) :
    splitSection (encStr s ++ (TERM7 ++ r)) = some (encStr s, r) := by
  rw [← List.append_assoc]
  exact splitSection_encoded r s.data

/-- The cookie produced by `encryptSession` splits on `':'` into exactly
the IV part and the ciphertext part. -/
theorem jsSplit_encryptSession (env : Env) (iv : Nat) (data : String) :
    jsSplit ':' (encryptSession env iv data).data
      = [hexPadLeft 32 (iv % 16 ^ 32),
         aesEncrypt env.SESSION_SECRET
           (String.mk (hexPadLeft 32 (iv % 16 ^ 32))) data] := by
  unfold encryptSession
  rw [show ((String.mk (hexPadLeft 32 (iv % 16 ^ 32)) ++ ":"
        ++ String.mk (aesEncrypt env.SESSION_SECRET
             (String.mk (hexPadLeft 32 (iv % 16 ^ 32))) data)).data : List Char)
        = hexPadLeft 32 (iv % 16 ^ 32)
          ++ ':' :: aesEncrypt env.SESSION_SECRET
               (String.mk (hexPadLeft 32 (iv % 16 ^ 32))) data by
      simp [String.data_append]]
  rw [jsSplit_append ':' _ _ (colon_not_mem_hexPadLeft 32 _)]
  rw [jsSplit_no_sep ':' _ (colon_not_mem_aesEncrypt _ _ _)]

/-- Decrypting a fresh encryption under the same secret recovers the
plaintext — except that the empty plaintext decrypts to `none`, because of
the `decrypted || null` coercion. -/
theorem decryptSession_encryptSession (env : Env) (iv : Nat) (data : String) :
    decryptSession env (encryptSession env iv data)
      = if data = "" then none else some data := by
  unfold decryptSession
  rw [jsSplit_encryptSession]
  simp only [List.length_cons, List.length_nil]
  rw [if_neg (by norm_num)]
  rw [isIvHex_hexPadLeft]
  simp only [if_true]
  rw [show aesDecrypt env.SESSION_SECRET
        (String.mk (hexPadLeft 32 (iv % 16 ^ 32)))
        (aesEncrypt env.SESSION_SECRET
          (String.mk (hexPadLeft 32 (iv % 16 ^ 32))) data)
        = some data by
    unfold aesDecrypt aesEncrypt
    rw [show (encStr env.SESSION_SECRET ++ TERM7
          ++ encStr (String.mk (hexPadLeft 32 (iv % 16 ^ 32))) ++ TERM7
          ++ encStr data : List Char)
          = encStr env.SESSION_SECRET
            ++ (TERM7 ++ (encStr (String.mk (hexPadLeft 32 (iv % 16 ^ 32)))
                 ++ (TERM7 ++ encStr data))) by
        simp [List.append_assoc]]
    simp only [splitSection_encStr]
    simp [decodeChunks_encoded, encStr]]

/-- Decrypting under a different session secret fails: the key tag of the
idealised cipher cannot match, the padding check throws, and the exception
is caught as `null`. -/
theorem decryptSession_wrong_secret (env env' : Env) (iv : Nat) (data : String)
    (h : env'.SESSION_SECRET ≠ env.SESSION_SECRET) :
    decryptSession env' (encryptSession env iv data) = none := by
  unfold decryptSession
  rw [jsSplit_encryptSession]
  simp only [List.length_cons, List.length_nil]
  rw [if_neg (by norm_num)]
  rw [isIvHex_hexPadLeft]
  simp only [if_true]
  rw [show aesDecrypt env'.SESSION_SECRET
        (String.mk (hexPadLeft 32 (iv % 16 ^ 32)))
        (aesEncrypt env.SESSION_SECRET
          (String.mk (hexPadLeft 32 (iv % 16 ^ 32))) data)
        = none by
    unfold aesDecrypt aesEncrypt
    rw [show (encStr env.SESSION_SECRET ++ TERM7
          ++ encStr (String.mk (hexPadLeft 32 (iv % 16 ^ 32))) ++ TERM7
          ++ encStr data : List Char)
          = encStr env.SESSION_SECRET
            ++ (TERM7 ++ (encStr (String.mk (hexPadLeft 32 (iv % 16 ^ 32)))
                 ++ (TERM7 ++ encStr data))) by
        simp [List.append_assoc]]
    simp only [splitSection_encStr]
    rw [if_neg]
    intro hcon
    exact h (string_data_inj (encChar_flatMap_inj hcon.1)).symm]

/-- The JSON form of a session record is never the empty string. -/
theorem jsonStringify_ne_empty (S : SessionData) : jsonStringify S ≠ "" := by
  intro h
  have hd := congrArg String.data h
  simp [jsonStringify, String.data_append] at hd

/-- Sanity check: the session parser inverts `jsonStringify` on a record
whose fields exercise the quote and backslash escapes. -/
theorem parseSession_jsonStringify_example :
    parseSession (jsonStringify
      { user := { id := "u1", name := "Ann \"A\" B\\C", email := "a@x.com" },
        token := { access := "acc.tok", refresh := "ref.tok" },
        expirate := 1234, remember := true }).data
      = some
        { user := { id := "u1", name := "Ann \"A\" B\\C", email := "a@x.com" },
          token := { access := "acc.tok", refresh := "ref.tok" },
          expirate := 1234, remember := true } := by
  decide

/-- C2: the session-envelope algebra: (1) for every session record `S` and
every IV, decrypting the encryption of `JSON(S)` under the same secret
yields `JSON(S)` again; (2) decryption of any string whose `':'`-split does
not produce exactly two parts returns `null`; (3) decryption of a blob
encrypted under a different secret returns `null` (the model's decrypt is a
total function — the underlying exception is caught in the source). -/
theorem sessionEnvelopeAlgebra :
    (∀ (env : Env) (S : SessionData) (iv : Nat),
      decryptSession env (encryptSession env iv (jsonStringify S))
        = some (jsonStringify S)) ∧
    (∀ (env : Env) (s : String),
      (jsSplit ':' s.data).length ≠ 2 → decryptSession env s = none) ∧
    (∀ (env env' : Env) (iv : Nat) (s : String),
      env'.SESSION_SECRET ≠ env.SESSION_SECRET →
      decryptSession env' (encryptSession env iv s) = none) := by
  refine ⟨?_, ?_, ?_⟩
  · intro env S iv
    rw [decryptSession_encryptSession, if_neg (jsonStringify_ne_empty S)]
  · intro env s h
    unfold decryptSession
    simp [h]
  · intro env env' iv s h
    exact decryptSession_wrong_secret env env' iv s h

/-- Witness for C2 at concrete inputs: a concrete session record
round-trips, `"a:b:c"` (three parts) decrypts to `null`, and a blob
encrypted under secret `"s1"` decrypts to `null` under secret `"s2"`. -/
theorem sessionEnvelopeAlgebra_witness :
    decryptSession
      { JWT_ACCESS_SECRET := "a", JWT_REFRESH_SECRET := "r",
        SESSION_SECRET := "s1" }
      (encryptSession
        { JWT_ACCESS_SECRET := "a", JWT_REFRESH_SECRET := "r",
          SESSION_SECRET := "s1" } 5
        (jsonStringify
          { user := { id := "u1", name := "Ann", email := "a@x.com" },
            token := { access := "at", refresh := "rt" },
            expirate := 99, remember := false }))
      = some (jsonStringify
          { user := { id := "u1", name := "Ann", email := "a@x.com" },
            token := { access := "at", refresh := "rt" },
            expirate := 99, remember := false }) ∧
    decryptSession
      { JWT_ACCESS_SECRET := "a", JWT_REFRESH_SECRET := "r",
        SESSION_SECRET := "s1" } "a:b:c" = none ∧
    decryptSession
      { JWT_ACCESS_SECRET := "a", JWT_REFRESH_SECRET := "r",
        SESSION_SECRET := "s2" }
      (encryptSession
        { JWT_ACCESS_SECRET := "a", JWT_REFRESH_SECRET := "r",
          SESSION_SECRET := "s1" } 0 "x") = none :=
  ⟨sessionEnvelopeAlgebra.1 _ _ 5,
   sessionEnvelopeAlgebra.2.1 _ "a:b:c" (by decide),
   sessionEnvelopeAlgebra.2.2 _ _ 0 "x" (by decide)⟩

/-- C9: the round-trip fails exactly at the empty plaintext: the
`decrypted || null` coercion in `decryptSession` turns the successfully
decrypted empty string into `null`, while every non-empty plaintext
round-trips. -/
theorem emptyPlaintextRoundtripFails :
    (∀ (env : Env) (iv : Nat),
      decryptSession env (encryptSession env iv "") = none) ∧
    (∀ (env : Env) (iv : Nat) (s : String), s ≠ "" →
      decryptSession env (encryptSession env iv s) = some s) := by
  constructor
  · intro env iv
    rw [decryptSession_encryptSession]
    simp
  · intro env iv s h
    rw [decryptSession_encryptSession, if_neg h]

/-- Witness for C9: the empty string encrypts-then-decrypts to `null`,
while `"x"` round-trips, at a concrete secret and IV. -/
theorem emptyPlaintextRoundtripFails_witness :
    decryptSession
      { JWT_ACCESS_SECRET := "a", JWT_REFRESH_SECRET := "r",
        SESSION_SECRET := "s1" }
      (encryptSession
        { JWT_ACCESS_SECRET := "a", JWT_REFRESH_SECRET := "r",
          SESSION_SECRET := "s1" } 7 "") = none ∧
    decryptSession
      { JWT_ACCESS_SECRET := "a", JWT_REFRESH_SECRET := "r",
        SESSION_SECRET := "s1" }
      (encryptSession
        { JWT_ACCESS_SECRET := "a", JWT_REFRESH_SECRET := "r",
          SESSION_SECRET := "s1" } 7 "x") = some "x" :=
  ⟨emptyPlaintextRoundtripFails.1 _ 7,
   emptyPlaintextRoundtripFails.2 _ 7 "x" (by decide)⟩

set_option maxRecDepth 4000 in
/-- C6 counterexample: a cookie value exists — the valid encryption, under
the server's own secret, of the non-JSON text `"hello"` (the model's
stand-in for a tampered ciphertext whose padding still validates) — on
which `getSession` does not return `null` but lets the `JSON.parse`
exception escape: the source calls `JSON.parse(decrypted)` outside any
try/catch. -/
theorem sessionFailClosed_counterexample :
    getSession
      { JWT_ACCESS_SECRET := "a", JWT_REFRESH_SECRET := "r",
        SESSION_SECRET := "s1" }
      (some (encryptSession
        { JWT_ACCESS_SECRET := "a", JWT_REFRESH_SECRET := "r",
          SESSION_SECRET := "s1" } 0 "hello"))
      = .error "SyntaxError: Unexpected token in JSON" := by
  show (match decryptSession
        { JWT_ACCESS_SECRET := "a", JWT_REFRESH_SECRET := "r",
          SESSION_SECRET := "s1" }
        (encryptSession
          { JWT_ACCESS_SECRET := "a", JWT_REFRESH_SECRET := "r",
            SESSION_SECRET := "s1" } 0 "hello") with
    | none => Except.ok none
    | some plain =>
      match jsonParse plain with
      | Except.ok v => Except.ok (some v)
      | Except.error e => Except.error e)
    = Except.error "SyntaxError: Unexpected token in JSON"
  rw [show decryptSession
        { JWT_ACCESS_SECRET := "a", JWT_REFRESH_SECRET := "r",
          SESSION_SECRET := "s1" }
        (encryptSession
          { JWT_ACCESS_SECRET := "a", JWT_REFRESH_SECRET := "r",
            SESSION_SECRET := "s1" } 0 "hello") = some "hello" by
    rw [decryptSession_encryptSession]
    rfl]
  rfl

/-- C6 amended: whenever decryption fails — which in this idealised model
covers every malformed blob, every blob under a wrong key, and every
tampered ciphertext — `getSession` returns `null` ("no session") without
an exception, and with no cookie it returns `null` as well; but when
decryption succeeds on text that is not a session record, `getSession`
propagates the `JSON.parse` exception. -/
theorem sessionFailClosed_amended (env : Env) (c : String)
    (h : decryptSession env c = none) :
    getSession env (some c) = .ok none ∧ getSession env none = .ok none := by
  constructor
  · show (match decryptSession env c with
      | none => Except.ok none
      | some plain =>
        match jsonParse plain with
        | Except.ok v => Except.ok (some v)
        | Except.error e => Except.error e)
      = (Except.ok none : Except String (Option SessionData))
    rw [h]
  · rfl

/-- Witness for the amended C6: a colon-free garbage cookie decrypts to
`null` and `getSession` treats it as "no session". -/
theorem sessionFailClosed_amended_witness :
    getSession
      { JWT_ACCESS_SECRET := "a", JWT_REFRESH_SECRET := "r",
        SESSION_SECRET := "s1" } (some "garbage") = .ok none ∧
    getSession
      { JWT_ACCESS_SECRET := "a", JWT_REFRESH_SECRET := "r",
        SESSION_SECRET := "s1" } none = .ok none :=
  sessionFailClosed_amended _ "garbage" (by decide)

/-- C10: when no valid session exists — no cookie, or the cookie fails
decryption — `updateSession` leaves the stored cookie unchanged and its
result does not depend on the updater function (the updater is never
invoked); the cookie is rewritten only when a session was recovered. -/
theorem updateSessionFrame (env : Env) (cookie : Option String) (iv : Nat)
    (f g : SessionData → SessionData)
    (h : getSession env cookie = .ok none) :
    updateSession env f cookie iv = .ok cookie ∧
    updateSession env f cookie iv = updateSession env g cookie iv := by
  constructor
  · unfold updateSession
    rw [h]
  · unfold updateSession
    rw [h]

/-- Witness for C10 with an absent cookie and two different updaters. -/
theorem updateSessionFrame_witness :
    updateSession
      { JWT_ACCESS_SECRET := "a", JWT_REFRESH_SECRET := "r",
        SESSION_SECRET := "s1" } id none 3 = .ok none ∧
    updateSession
      { JWT_ACCESS_SECRET := "a", JWT_REFRESH_SECRET := "r",
        SESSION_SECRET := "s1" } id none 3
      = updateSession
          { JWT_ACCESS_SECRET := "a", JWT_REFRESH_SECRET := "r",
            SESSION_SECRET := "s1" }
          (fun s => { s with remember := true }) none 3 :=
  updateSessionFrame _ none 3 id (fun s => { s with remember := true }) rfl

/-- One cache event preserves the single-flight accounting invariant. -/
theorem dbStep_preserves_inv (s : MongooseCache) (e : DbEvent)
    (h : s.started = s.finished + inFlightCount s) :
    (dbStep s e).started
      = (dbStep s e).finished + inFlightCount (dbStep s e) := by
  cases e <;>
    rcases hc : s.conn with _ | x <;>
    rcases hp : s.promise with _ | y <;>
    simp [dbStep, inFlightCount, hc, hp] at h ⊢ <;>
    omega

/-- Along every event sequence from process start, the number of
connection attempts started equals the number finished plus the (at most
one) attempt in flight. -/
theorem dbRun_inv (events : List DbEvent) :
    (dbRun events).started
      = (dbRun events).finished + inFlightCount (dbRun events) := by
  have H : ∀ (l : List DbEvent) (s : MongooseCache),
      s.started = s.finished + inFlightCount s →
      (l.foldl dbStep s).started
        = (l.foldl dbStep s).finished + inFlightCount (l.foldl dbStep s) := by
    intro l
    induction l with
    | nil => intro s h; simpa using h
    | cons e l ih =>
      intro s h
      simpa using ih (dbStep s e) (dbStep_preserves_inv s e h)
  exact H events initialCache rfl

/-- C8: the connection cache is single-flight: (1) along every event
sequence at most one connection attempt is unresolved at any time
(started = finished + inFlightCount, with inFlightCount ≤ 1 by
construction); (2) a caller arriving while an attempt is in flight awaits
exactly that attempt and changes nothing — no duplicate connection is
opened; (3) when the in-flight attempt fails, the cached promise is
cleared, and the next caller starts a fresh attempt (the started counter
increments). -/
theorem connectionCacheSingleFlight :
    (∀ events : List DbEvent,
      (dbRun events).started
        = (dbRun events).finished + inFlightCount (dbRun events)) ∧
    (∀ (s : MongooseCache) (a : Nat), s.conn = none → s.promise = some a →
      callAction s = .awaitExisting a ∧ dbStep s .call = s) ∧
    (∀ (s : MongooseCache) (a : Nat), s.conn = none → s.promise = some a →
      (dbStep s .resolveFail).promise = none ∧
      callAction (dbStep s .resolveFail) = .startNew s.started ∧
      (dbStep (dbStep s .resolveFail) .call).started = s.started + 1) := by
  refine ⟨dbRun_inv, ?_, ?_⟩
  · intro s a hc hp
    constructor
    · simp [callAction, hc, hp]
    · simp [dbStep, hc, hp]
  · intro s a hc hp
    refine ⟨?_, ?_, ?_⟩
    · simp [dbStep, hc, hp]
    · simp [callAction, dbStep, hc, hp]
    · simp [dbStep, hc, hp]

/-- Witness for C8: a concrete trace (call, failure, retry call) satisfies
the accounting invariant, and the concrete in-flight state
`{conn := none, promise := some 0, started := 1}` awaits attempt 0 on a
second call, clears on failure, and starts attempt 1 on the next call. -/
theorem connectionCacheSingleFlight_witness :
    ((dbRun [DbEvent.call, DbEvent.resolveFail, DbEvent.call]).started
      = (dbRun [DbEvent.call, DbEvent.resolveFail, DbEvent.call]).finished
        + inFlightCount
            (dbRun [DbEvent.call, DbEvent.resolveFail, DbEvent.call])) ∧
    (callAction { conn := none, promise := some 0, started := 1, finished := 0 }
        = .awaitExisting 0 ∧
      dbStep { conn := none, promise := some 0, started := 1, finished := 0 }
          .call
        = { conn := none, promise := some 0, started := 1, finished := 0 }) ∧
    ((dbStep { conn := none, promise := some 0, started := 1, finished := 0 }
        .resolveFail).promise = none ∧
      callAction
        (dbStep { conn := none, promise := some 0, started := 1, finished := 0 }
          .resolveFail) = .startNew 1 ∧
      (dbStep
        (dbStep { conn := none, promise := some 0, started := 1, finished := 0 }
          .resolveFail) .call).started = 2) :=
  ⟨connectionCacheSingleFlight.1 [DbEvent.call, DbEvent.resolveFail, DbEvent.call],
   connectionCacheSingleFlight.2.1
     { conn := none, promise := some 0, started := 1, finished := 0 } 0 rfl rfl,
   connectionCacheSingleFlight.2.2
     { conn := none, promise := some 0, started := 1, finished := 0 } 0 rfl rfl⟩

end Notes
